import Mathlib

/-!
# Restaurant website: request handlers over an explicit persistence state

A shallow embedding of `routes/auth.routes.js`, `routes/meals.routes.js`,
`models/User.model.js` and `models/Comment.model.js`.

* The three collections (users, meals, comments) are lists in insertion order;
  a request handler is a function from the request, the persistence state and
  the session's `currentUser` to an `Outcome`.
* An `Outcome` carries the new persistence state, the new session user, the
  calls made on `res` / `next` in the order they are made (`replies`) and the
  calls made on the persistence layer and on bcrypt (`calls`).
* Route parameters are taken after the cast to an ObjectId; form fields are
  strings (what an url-encoded or multipart form submits).
* Timestamps are left out.  Each request runs to completion on its own.
-/

namespace Restaurant

/-! ## Data model -/

/-- A persistence-assigned identifier (`_id`). -/
abbrev ObjectId := Nat

/-- The `enum` of `role` in `userSchema`. -/
inductive Role where
  | admin
  | moderator
  | customer
  deriving DecidableEq, Repr

/-- A document of `userSchema` (`models/User.model.js`). -/
structure User where
  id : ObjectId
  username : String
  email : String
  password : String
  role : Role
  deriving DecidableEq, Repr

/-- A document of `commentSchema` (`models/Comment.model.js`): `dish` and
`author` are references, neither is `required`; `content` is. -/
structure Comment where
  id : ObjectId
  dish : ObjectId
  author : Option ObjectId
  content : String
  deriving DecidableEq, Repr

/-- Modelled from the spec: `models/Meal.model.js` is not among the sources.
The spec's data model gives a Meal the fields `name`, `ingredients`,
`allergens`, `spiceLevel`, `mealImage`, `category`, `cuisine`, `dishType` and
an ordered collection `comments` of references to Comment records, and states
no persistence constraint on them. -/
structure Meal where
  id : ObjectId
  name : String
  ingredients : String
  allergens : String
  spiceLevel : String
  mealImage : String
  category : String
  cuisine : String
  dishType : String
  comments : List ObjectId
  deriving DecidableEq, Repr

/-- The persistence state: the three collections and the next identifier the
driver hands out. -/
structure Db where
  users : List User
  meals : List Meal
  comments : List Comment
  nextId : ObjectId
  deriving DecidableEq, Repr

/-- Values a promise rejects with or a callback reports. -/
inductive Err where
  /-- Mongoose `ValidationError`: a `required` path is empty. -/
  | validationError
  /-- MongoDB E11000: a `unique` index already holds the value. -/
  | duplicateKey
  /-- A JavaScript `TypeError`: a property is read from `null` or `undefined`. -/
  | typeError
  /-- An error reported by the session store to `req.session.destroy`. -/
  | sessionStore (code : Nat)
  deriving DecidableEq, Repr

/-- The three route guards of `middleware/route-guard.js`. -/
inductive Guard where
  | isLoggedIn
  | isLoggedOut
  | isAdmin
  deriving DecidableEq, Repr

/-- A comment of a meal after `populate`, the author resolved to `_id` and
`username` (`select: "username"`), `none` when the reference resolves to no
user. -/
structure PopulatedComment where
  id : ObjectId
  dish : ObjectId
  author : Option (ObjectId × String)
  content : String
  deriving DecidableEq, Repr

/-- A meal whose `comments` path has been populated. -/
structure MealDetail where
  meal : Meal
  comments : List PopulatedComment
  deriving DecidableEq, Repr

/-- A call made on `res` or on `next` by a handler or a guard. -/
inductive Reply where
  /-- The call `res.render(view, { errorMessage })`, or `res.render(view)` of a form. -/
  | render (view : String) (errorMessage : Option String)
  /-- The call `res.render(view, { allMeals, .. })`. -/
  | renderMeals (view : String) (allMeals : List Meal)
  /-- The call `res.render(view, { foundMeal, .. })` with a populated meal or `null`. -/
  | renderMeal (view : String) (foundMeal : Option MealDetail)
  /-- The call `res.render('meals/edit-meal', { foundMeal })`. -/
  | renderEdit (view : String) (foundMeal : Option Meal)
  /-- The call `res.render("user/profile", { foundUser, foundComments, .. })`. -/
  | renderProfile (view : String) (foundUser : Option User)
      (foundComments : List (Comment × Option Meal))
  /-- The call `res.redirect(path)`. -/
  | redirect (path : String)
  /-- The call `next(error)`: the error goes to the generic error handler. -/
  | next (error : Err)
  /-- A guard refused the request before the handler ran. -/
  | shortCircuit (guard : Guard)
  deriving DecidableEq, Repr

/-- A call made on the persistence layer or on bcrypt. -/
inductive Call where
  | userFindOne
  | userFindById
  | userCreate
  | bcryptHash
  | bcryptCompareSync
  | mealFind
  | mealFindOne
  | mealFindById
  | mealCreate
  | mealFindByIdAndUpdate
  | mealFindByIdAndDelete
  | commentCreate
  | commentFind
  deriving DecidableEq, Repr

/-- What a request leaves behind. -/
structure Outcome where
  db : Db
  currentUser : Option User
  replies : List Reply
  calls : List Call
  deriving DecidableEq, Repr

/-- The collaborators outside the repository: bcrypt and the runtime's case
mapping. `hash password rounds` is `bcrypt.hash`, `compareSync password hash`
is `bcrypt.compareSync`. -/
structure Env where
  hash : String → Nat → String
  compareSync : String → String → Bool
  toLowerCase : String → String

/-! ## JavaScript strings -/

/-- The `length` of a JavaScript string: its number of UTF-16 code units. -/
def jsLength (s : String) : Nat :=
  s.toList.foldl (fun n c => n + (if c.toNat < 65536 then 1 else 2)) 0

/-- WhiteSpace and LineTerminator code points, which `String.prototype.trim`
strips. -/
def isJsWhiteSpace (c : Char) : Bool :=
  let n := c.toNat
  n == 9 || n == 10 || n == 11 || n == 12 || n == 13 || n == 32 || n == 160
    || n == 5760 || (8192 ≤ n && n ≤ 8202) || n == 8232 || n == 8233
    || n == 8239 || n == 8287 || n == 12288 || n == 65279

/-- The `trim: true` setter of a schema string. -/
def jsTrim (s : String) : String :=
  String.mk ((s.toList.dropWhile isJsWhiteSpace).reverse.dropWhile isJsWhiteSpace).reverse

/-! ## Persistence layer (Mongoose models) -/

/-- The setters of `username` in `userSchema`: `trim`. -/
def usernameSetter (username : String) : String :=
  jsTrim username

/-- The setters of `email` in `userSchema`: `trim` and `lowercase`. -/
def emailSetter (env : Env) (email : String) : String :=
  jsTrim (env.toLowerCase email)

/-- The call `User.findOne({ username })`: the filter value goes through the setters of
the path, then the first user with that username is returned. -/
def User.findOneByUsername (db : Db) (username : String) : Option User :=
  db.users.find? (fun u => u.username == usernameSetter username)

/-- The call `User.findOne({ email })`. -/
def User.findOneByEmail (env : Env) (db : Db) (email : String) : Option User :=
  db.users.find? (fun u => u.email == emailSetter env email)

/-- The call `User.findById(userId)`. -/
def User.findById (db : Db) (userId : ObjectId) : Option User :=
  db.users.find? (fun u => u.id == userId)

/-- The call `User.create({ username, email, password })`: the setters run, the
`required` paths are validated (an empty string fails), `role` takes its
default, and the insert is rejected when a `unique` index (username, email)
already holds the value. -/
def User.create (env : Env) (db : Db) (username email password : String) :
    Except Err (Db × User) :=
  let doc : User :=
    { id := db.nextId, username := usernameSetter username,
      email := emailSetter env email, password := password, role := Role.customer }
  if doc.username = "" ∨ doc.email = "" ∨ doc.password = "" then
    Except.error Err.validationError
  else if db.users.any (fun u => u.username == doc.username || u.email == doc.email) then
    Except.error Err.duplicateKey
  else
    Except.ok ({ db with users := db.users ++ [doc], nextId := db.nextId + 1 }, doc)

/-- The call `Meal.find()`. -/
def Meal.find (db : Db) : List Meal :=
  db.meals

/-- The call `Meal.findById(mealId)`. -/
def Meal.findById (db : Db) (mealId : ObjectId) : Option Meal :=
  db.meals.find? (fun m => m.id == mealId)

/-- The call `Meal.findOne({ name })`. -/
def Meal.findOne (db : Db) (name : String) : Option Meal :=
  db.meals.find? (fun m => m.name == name)

/-- The call `Meal.create({ .. })`: the document gets a new `_id` and no comments. -/
def Meal.create (db : Db)
    (name ingredients allergens spiceLevel mealImage category cuisine dishType : String) :
    Db × Meal :=
  let doc : Meal :=
    { id := db.nextId, name := name, ingredients := ingredients, allergens := allergens,
      spiceLevel := spiceLevel, mealImage := mealImage, category := category,
      cuisine := cuisine, dishType := dishType, comments := [] }
  ({ db with meals := db.meals ++ [doc], nextId := db.nextId + 1 }, doc)

/-- Replace the first element satisfying `p` by its image under `f`. -/
def updateFirst {α : Type} (p : α → Bool) (f : α → α) : List α → List α
  | [] => []
  | a :: as => if p a then f a :: as else a :: updateFirst p f as

/-- Remove the first element satisfying `p`. -/
def removeFirst {α : Type} (p : α → Bool) : List α → List α
  | [] => []
  | a :: as => if p a then as else a :: removeFirst p as

/-- The call `Meal.findByIdAndUpdate(mealId, update, { new: true })`: the document with
that `_id` is updated in place; the result is the updated document, or `null`
when there is none. -/
def Meal.findByIdAndUpdate (db : Db) (mealId : ObjectId) (update : Meal → Meal) :
    Db × Option Meal :=
  ({ db with meals := updateFirst (fun m => m.id == mealId) update db.meals },
    (Meal.findById db mealId).map update)

/-- The call `Meal.findByIdAndDelete(mealId)`: the promise resolves whether or not a
document was found. -/
def Meal.findByIdAndDelete (db : Db) (mealId : ObjectId) : Db :=
  { db with meals := removeFirst (fun m => m.id == mealId) db.meals }

/-- The call `Comment.create({ dish, author, content })`: `content` is `required`. -/
def Comment.create (db : Db) (dish : ObjectId) (author : Option ObjectId) (content : String) :
    Except Err (Db × Comment) :=
  let doc : Comment := { id := db.nextId, dish := dish, author := author, content := content }
  if content = "" then
    Except.error Err.validationError
  else
    Except.ok ({ db with comments := db.comments ++ [doc], nextId := db.nextId + 1 }, doc)

/-- The call `Comment.find({ author: userId }).populate("dish")`. -/
def Comment.findByAuthor (db : Db) (userId : ObjectId) : List (Comment × Option Meal) :=
  (db.comments.filter (fun c => c.author == some userId)).map
    (fun c => (c, Meal.findById db c.dish))

/-- Resolve one comment reference: the comment, with its author resolved to
the username. -/
def populateComment (db : Db) (commentId : ObjectId) : Option PopulatedComment :=
  (db.comments.find? (fun c => c.id == commentId)).map (fun c =>
    { id := c.id, dish := c.dish,
      author := c.author.bind (fun a => (User.findById db a).map (fun u => (u.id, u.username))),
      content := c.content })

/-- The step `.populate({ path: "comments", populate: { path: "author", select: "username" } })`:
references that resolve to no comment are dropped. -/
def populate (db : Db) (meal : Meal) : MealDetail :=
  { meal := meal, comments := meal.comments.filterMap (populateComment db) }

/-! ## Route guards -/

/-- Modelled from the spec: `middleware/route-guard.js` is not among the
sources.  Authenticated-only: the request passes when the session holds a
user. -/
def isLoggedIn (currentUser : Option User) : Bool :=
  currentUser.isSome

/-- Modelled from the spec: `middleware/route-guard.js` is not among the
sources.  Anonymous-only: the request passes when the session holds no user. -/
def isLoggedOut (currentUser : Option User) : Bool :=
  currentUser.isNone

/-- Modelled from the spec: `middleware/route-guard.js` is not among the
sources.  Admin-only: the request passes when the session user's role is
`admin`. -/
def isAdmin (currentUser : Option User) : Bool :=
  match currentUser with
  | some u => u.role == Role.admin
  | none => false

/-- Modelled from the spec: a guard is evaluated strictly before the handler
body; when it refuses, the request is short-circuited and no handler side
effect takes place. -/
def guarded (guard : Guard) (pass : Bool) (db : Db) (currentUser : Option User)
    (handler : Outcome) : Outcome :=
  if pass then handler
  else { db := db, currentUser := currentUser, replies := [Reply.shortCircuit guard], calls := [] }

/-! ## `routes/auth.routes.js` -/

/-- The constant `const saltRounds = 10`. -/
def saltRounds : Nat := 10

/-- The `req.body` of POST /signup. -/
structure SignupBody where
  username : String
  email : String
  password : String
  deriving DecidableEq, Repr

/-- The `req.body` of POST /login. -/
structure LoginBody where
  email : String
  password : String
  deriving DecidableEq, Repr

/-- The handler of `router.get("/signup", ..)`. -/
def getSignup (db : Db) (currentUser : Option User) : Outcome :=
  { db := db, currentUser := currentUser, replies := [Reply.render "auth/signup" none], calls := [] }

/-- The handler of `router.post("/signup", ..)`. -/
def postSignup (env : Env) (body : SignupBody) (db : Db) (currentUser : Option User) : Outcome :=
  if body.username = "" ∨ body.email = "" ∨ body.password = "" then
    { db := db, currentUser := currentUser, calls := [],
      replies := [Reply.render "auth/signup"
        (some "All fields are mandatory. Please provide a username, email and password.")] }
  else if jsLength body.password < 8 then
    { db := db, currentUser := currentUser, calls := [],
      replies := [Reply.render "auth/signup"
        (some "Your password must be a minimum of 8 characters.")] }
  else
    match User.findOneByUsername db body.username with
    | some _ =>
      { db := db, currentUser := currentUser, calls := [Call.userFindOne],
        replies := [Reply.render "auth/signup"
          (some "Username invalid. Please try a different username.")] }
    | none =>
      let hashedPassword := env.hash body.password saltRounds
      match User.create env db body.username body.email hashedPassword with
      | Except.ok (db1, createdUser) =>
        { db := db1, currentUser := some createdUser,
          calls := [Call.userFindOne, Call.bcryptHash, Call.userCreate],
          replies := [Reply.redirect "/menu"] }
      | Except.error error =>
        { db := db, currentUser := currentUser,
          calls := [Call.userFindOne, Call.bcryptHash, Call.userCreate],
          replies := [Reply.next error] }

/-- The handler of `router.get("/login", ..)`. -/
def getLogin (db : Db) (currentUser : Option User) : Outcome :=
  { db := db, currentUser := currentUser, replies := [Reply.render "auth/login" none], calls := [] }

/-- The handler of `router.post("/login", ..)`. -/
def postLogin (env : Env) (body : LoginBody) (db : Db) (currentUser : Option User) : Outcome :=
  if body.email = "" ∨ body.password = "" then
    { db := db, currentUser := currentUser, calls := [],
      replies := [Reply.render "auth/login"
        (some "All fields are mandatory. Please provide email and password.")] }
  else
    match User.findOneByEmail env db body.email with
    | none =>
      { db := db, currentUser := currentUser, calls := [Call.userFindOne],
        replies := [Reply.render "auth/login"
          (some "Invalid email or password. Please try again.")] }
    | some foundUser =>
      if env.compareSync body.password foundUser.password then
        { db := db, currentUser := some foundUser,
          calls := [Call.userFindOne, Call.bcryptCompareSync],
          replies := [Reply.redirect "/menu"] }
      else
        { db := db, currentUser := currentUser,
          calls := [Call.userFindOne, Call.bcryptCompareSync],
          replies := [Reply.render "auth/login"
            (some "User not found and/or incorrect password.")] }

/-- The handler of `router.post('/logout', ..)`.  `destroyError` is what the
session store passes to the callback of `req.session.destroy`: the callback
runs `if (err) next(err);` and then, in every case, `res.redirect('/')`.  A
store that reports an error is taken to have kept the session. -/
def postLogout (destroyError : Option Err) (db : Db) (currentUser : Option User) : Outcome :=
  { db := db,
    currentUser := (match destroyError with
      | some _ => currentUser
      | none => none),
    calls := [],
    replies := (match destroyError with
      | some err => [Reply.next err]
      | none => []) ++ [Reply.redirect "/"] }

/-- The handler of `router.get("/profile/:userId", ..)`. -/
def getProfile (userId : ObjectId) (db : Db) (currentUser : Option User) : Outcome :=
  let foundUser := User.findById db userId
  let foundComments := Comment.findByAuthor db userId
  { db := db, currentUser := currentUser, calls := [Call.userFindById, Call.commentFind],
    replies := [Reply.renderProfile "user/profile" foundUser foundComments] }

/-! ## `routes/meals.routes.js` -/

/-- The `req.file` object, set by the upload middleware when the form carries an image. -/
structure UploadedFile where
  path : String
  deriving DecidableEq, Repr

/-- The `req.body` of POST /meals/create. -/
structure MealBody where
  name : String
  ingredients : String
  allergens : String
  spiceLevel : String
  category : String
  cuisine : String
  dishType : String
  deriving DecidableEq, Repr

/-- The `req.body` of POST /meals/:mealId/edit. -/
structure EditBody where
  name : String
  ingredients : String
  allergens : String
  spiceLevel : String
  category : String
  cuisine : String
  dishType : String
  existingImage : String
  deriving DecidableEq, Repr

/-- The handler of `router.get("/menu", ..)`. -/
def getMenu (db : Db) (currentUser : Option User) : Outcome :=
  { db := db, currentUser := currentUser, calls := [Call.mealFind],
    replies := [Reply.renderMeals "meals/menu" (Meal.find db)] }

/-- The handler of `router.get("/menu/meal/:mealId", ..)`: the callback reads
`foundMeal.comments` before it renders, which throws on `null`; the rejection
reaches `.catch`, which calls `next(error)`. -/
def getMenuMeal (mealId : ObjectId) (db : Db) (currentUser : Option User) : Outcome :=
  match Meal.findById db mealId with
  | some foundMeal =>
    { db := db, currentUser := currentUser, calls := [Call.mealFindById],
      replies := [Reply.renderMeal "meals/meal" (some (populate db foundMeal))] }
  | none =>
    { db := db, currentUser := currentUser, calls := [Call.mealFindById],
      replies := [Reply.next Err.typeError] }

/-- The handler of `router.post("/menu/meal/:mealId/create-comment", ..)`.
The author is `req.session.currentUser`, stored as a reference to its `_id`;
the result of `Meal.findByIdAndUpdate` is not looked at. -/
def postCreateComment (mealId : ObjectId) (content : String) (db : Db)
    (currentUser : Option User) : Outcome :=
  let dish := mealId
  let author := currentUser
  match Comment.create db dish (author.map (fun u => u.id)) content with
  | Except.ok (db1, newComment) =>
    let db2 := (Meal.findByIdAndUpdate db1 dish
      (fun m => { m with comments := m.comments ++ [newComment.id] })).1
    { db := db2, currentUser := currentUser,
      calls := [Call.commentCreate, Call.mealFindByIdAndUpdate],
      replies := [Reply.redirect ("/menu/meal/" ++ toString mealId)] }
  | Except.error error =>
    { db := db, currentUser := currentUser, calls := [Call.commentCreate],
      replies := [Reply.next error] }

/-- The handler of `router.get('/meals/create', ..)`. -/
def getCreateMeal (db : Db) (currentUser : Option User) : Outcome :=
  { db := db, currentUser := currentUser, calls := [],
    replies := [Reply.render "meals/new-meal" none] }

/-- The handler of `router.post('/meals/create', ..)`.  Without an uploaded
file `req.file.path` throws inside the `.then` callback before `Meal.create`
is called, and `.catch` calls `next(error)`. -/
def postCreateMeal (body : MealBody) (file : Option UploadedFile) (db : Db)
    (currentUser : Option User) : Outcome :=
  if body.name = "" ∨ body.ingredients = "" ∨ body.allergens = "" then
    { db := db, currentUser := currentUser, calls := [],
      replies := [Reply.render "meals/new-meal"
        (some "All fields are mandatory. Please provide a name, ingredients and allergens.")] }
  else
    match Meal.findOne db body.name with
    | none =>
      match file with
      | some f =>
        let db1 := (Meal.create db body.name body.ingredients body.allergens body.spiceLevel
          f.path body.category body.cuisine body.dishType).1
        { db := db1, currentUser := currentUser, calls := [Call.mealFindOne, Call.mealCreate],
          replies := [Reply.redirect "/meals"] }
      | none =>
        { db := db, currentUser := currentUser, calls := [Call.mealFindOne],
          replies := [Reply.next Err.typeError] }
    | some _ =>
      { db := db, currentUser := currentUser, calls := [Call.mealFindOne],
        replies := [Reply.render "meals/new-meal"
          (some "This meal already exists in the database.")] }

/-- The handler of `router.get('/meals', ..)`. -/
def getMeals (db : Db) (currentUser : Option User) : Outcome :=
  { db := db, currentUser := currentUser, calls := [Call.mealFind],
    replies := [Reply.renderMeals "meals/all-meals" (Meal.find db)] }

/-- The handler of `router.get('/meals/:mealId', ..)`: `foundMeal` is handed
to the view as it is, `null` included. -/
def getMealDetails (mealId : ObjectId) (db : Db) (currentUser : Option User) : Outcome :=
  { db := db, currentUser := currentUser, calls := [Call.mealFindById],
    replies := [Reply.renderMeal "meals/meal-details"
      ((Meal.findById db mealId).map (populate db))] }

/-- The handler of `router.post('/meals/:mealId/delete', ..)`. -/
def postDeleteMeal (mealId : ObjectId) (db : Db) (currentUser : Option User) : Outcome :=
  { db := Meal.findByIdAndDelete db mealId, currentUser := currentUser,
    calls := [Call.mealFindByIdAndDelete], replies := [Reply.redirect "/meals"] }

/-- The handler of `router.get('/meals/:mealId/edit', ..)`. -/
def getEditMeal (mealId : ObjectId) (db : Db) (currentUser : Option User) : Outcome :=
  { db := db, currentUser := currentUser, calls := [Call.mealFindById],
    replies := [Reply.renderEdit "meals/edit-meal" (Meal.findById db mealId)] }

/-- The update document of POST /meals/:mealId/edit applied to a meal: the
eight listed paths are set, `_id` and `comments` are not touched. -/
def applyEdit (body : EditBody) (mealImage : String) (m : Meal) : Meal :=
  { m with name := body.name, ingredients := body.ingredients, allergens := body.allergens,
           spiceLevel := body.spiceLevel, mealImage := mealImage, category := body.category,
           cuisine := body.cuisine, dishType := body.dishType }

/-- The handler of `router.post('/meals/:mealId/edit', ..)`.  When no meal has
that id the callback reads `foundMeal._id` from `null`, which throws, and
`.catch` calls `next(error)`. -/
def postEditMeal (mealId : ObjectId) (body : EditBody) (file : Option UploadedFile) (db : Db)
    (currentUser : Option User) : Outcome :=
  let mealImage :=
    match file with
    | some f => f.path
    | none => body.existingImage
  let result := Meal.findByIdAndUpdate db mealId (applyEdit body mealImage)
  match result.2 with
  | some foundMeal =>
    { db := result.1, currentUser := currentUser, calls := [Call.mealFindByIdAndUpdate],
      replies := [Reply.redirect ("/meals/" ++ toString foundMeal.id)] }
  | none =>
    { db := result.1, currentUser := currentUser, calls := [Call.mealFindByIdAndUpdate],
      replies := [Reply.next Err.typeError] }

/-! ## The exposed operations -/

/-- A request to one of the routes. -/
inductive Request where
  | getSignup
  | postSignup (body : SignupBody)
  | getLogin
  | postLogin (body : LoginBody)
  | postLogout (destroyError : Option Err)
  | getProfile (userId : ObjectId)
  | getMenu
  | getMenuMeal (mealId : ObjectId)
  | postCreateComment (mealId : ObjectId) (content : String)
  | getCreateMeal
  | postCreateMeal (body : MealBody) (file : Option UploadedFile)
  | getMeals
  | getMealDetails (mealId : ObjectId)
  | postDeleteMeal (mealId : ObjectId)
  | getEditMeal (mealId : ObjectId)
  | postEditMeal (mealId : ObjectId) (body : EditBody) (file : Option UploadedFile)
  deriving DecidableEq, Repr

/-- The router: each route with the guards it is registered with. -/
def handle (env : Env) (req : Request) (db : Db) (currentUser : Option User) : Outcome :=
  match req with
  | Request.getSignup =>
    guarded Guard.isLoggedOut (isLoggedOut currentUser) db currentUser (getSignup db currentUser)
  | Request.postSignup body =>
    guarded Guard.isLoggedOut (isLoggedOut currentUser) db currentUser
      (postSignup env body db currentUser)
  | Request.getLogin =>
    guarded Guard.isLoggedOut (isLoggedOut currentUser) db currentUser (getLogin db currentUser)
  | Request.postLogin body =>
    guarded Guard.isLoggedOut (isLoggedOut currentUser) db currentUser
      (postLogin env body db currentUser)
  | Request.postLogout destroyError =>
    guarded Guard.isLoggedIn (isLoggedIn currentUser) db currentUser
      (postLogout destroyError db currentUser)
  | Request.getProfile userId =>
    guarded Guard.isLoggedIn (isLoggedIn currentUser) db currentUser
      (getProfile userId db currentUser)
  | Request.getMenu => getMenu db currentUser
  | Request.getMenuMeal mealId => getMenuMeal mealId db currentUser
  | Request.postCreateComment mealId content => postCreateComment mealId content db currentUser
  | Request.getCreateMeal =>
    guarded Guard.isAdmin (isAdmin currentUser) db currentUser (getCreateMeal db currentUser)
  | Request.postCreateMeal body file =>
    guarded Guard.isAdmin (isAdmin currentUser) db currentUser
      (postCreateMeal body file db currentUser)
  | Request.getMeals =>
    guarded Guard.isAdmin (isAdmin currentUser) db currentUser (getMeals db currentUser)
  | Request.getMealDetails mealId =>
    guarded Guard.isAdmin (isAdmin currentUser) db currentUser
      (getMealDetails mealId db currentUser)
  | Request.postDeleteMeal mealId =>
    guarded Guard.isAdmin (isAdmin currentUser) db currentUser
      (postDeleteMeal mealId db currentUser)
  | Request.getEditMeal mealId =>
    guarded Guard.isAdmin (isAdmin currentUser) db currentUser (getEditMeal mealId db currentUser)
  | Request.postEditMeal mealId body file =>
    guarded Guard.isAdmin (isAdmin currentUser) db currentUser
      (postEditMeal mealId body file db currentUser)

/-- The referential invariant of the data model: every stored comment's
`dish` resolves to a meal, and that meal's `comments` holds the comment's id. -/
def CommentsReferenced (db : Db) : Prop :=
  ∀ c ∈ db.comments, ∃ m, Meal.findById db c.dish = some m ∧ c.id ∈ m.comments

instance (db : Db) : Decidable (CommentsReferenced db) := by
  unfold CommentsReferenced
  exact List.decidableBAll _ _

/-! ## Sample data -/

/-- A stand-in for bcrypt used to run the handlers on sample data: the hash
is the password behind a marker, and a password matches the hash made of it. -/
def sampleEnv : Env :=
  { hash := fun password rounds => "$2b$" ++ toString rounds ++ "$" ++ password
    compareSync := fun password hash => hash == "$2b$10$" ++ password
    toLowerCase := fun s => String.mk (s.toList.map Char.toLower) }

/-- An administrator. -/
def chef : User :=
  { id := 0, username := "chef", email := "chef@example.com",
    password := "$2b$10$mise en place", role := Role.admin }

/-- A registered customer. -/
def alice : User :=
  { id := 1, username := "alice", email := "alice@example.com",
    password := "$2b$10$correct horse", role := Role.customer }

/-- A meal without comments. -/
def soup : Meal :=
  { id := 2, name := "Soup", ingredients := "water, leek", allergens := "none",
    spiceLevel := "mild", mealImage := "https://img.example/soup.png", category := "starter",
    cuisine := "french", dishType := "vegan", comments := [] }

/-- A meal with one comment. -/
def curry : Meal :=
  { id := 3, name := "Curry", ingredients := "rice, chicken", allergens := "nuts",
    spiceLevel := "hot", mealImage := "https://img.example/curry.png", category := "main",
    cuisine := "indian", dishType := "meat", comments := [4] }

/-- The comment of `alice` on `curry`. -/
def praise : Comment :=
  { id := 4, dish := 3, author := some 1, content := "Very good." }

/-- A persistence state with two users, two meals and one comment. -/
def sampleDb : Db :=
  { users := [chef, alice], meals := [soup, curry], comments := [praise], nextId := 5 }

/-! ## Lists with keyed elements -/

theorem find?_updateFirst {α : Type} (key : α → Nat) (f : α → α) (hf : ∀ a, key (f a) = key a)
    (k j : Nat) (l : List α) :
    (updateFirst (fun a => key a == k) f l).find? (fun a => key a == j)
      = (l.find? (fun a => key a == j)).map (fun a => if j = k then f a else a) := by
  induction l with
  | nil => simp [updateFirst]
  | cons a as ih =>
    by_cases hk : key a = k
    · by_cases hj : key a = j
      · have hjk : j = k := hj.symm.trans hk
        subst hjk
        simp [updateFirst, hk, hf]
      · have hjk : ¬ j = k := fun h => hj (hk.trans h.symm)
        have hkj : ¬ k = j := fun h => hjk h.symm
        simp [updateFirst, hk, hf, hjk, hkj]
    · by_cases hj : key a = j
      · have hjk : ¬ j = k := fun h => hk (hj.trans h)
        simp [updateFirst, hk, hj, hjk]
      · simp [updateFirst, hk, hj, ih]

theorem find?_removeFirst_ne {α : Type} (key : α → Nat) (k j : Nat) (hjk : j ≠ k) (l : List α) :
    (removeFirst (fun a => key a == k) l).find? (fun a => key a == j)
      = l.find? (fun a => key a == j) := by
  induction l with
  | nil => simp [removeFirst]
  | cons a as ih =>
    by_cases hk : key a = k
    · have hkj : ¬ k = j := fun h => hjk h.symm
      simp [removeFirst, hk, hkj]
    · by_cases hj : key a = j
      · have hjk2 : ¬ j = k := hjk
        simp [removeFirst, hk, hj, hjk2]
      · simp [removeFirst, hk, hj, ih]

theorem removeFirst_eq_filter {α : Type} (key : α → Nat) (k : Nat) (l : List α)
    (hnodup : (l.map key).Nodup) :
    removeFirst (fun a => key a == k) l = l.filter (fun a => key a != k) := by
  induction l with
  | nil => simp [removeFirst]
  | cons a as ih =>
    have hnd : (as.map key).Nodup := (List.nodup_cons.mp (by simpa using hnodup)).2
    have hnotin : key a ∉ as.map key := (List.nodup_cons.mp (by simpa using hnodup)).1
    by_cases hk : key a = k
    · have hall : ∀ b ∈ as, key b ≠ k := by
        intro b hb hbk
        exact hnotin (List.mem_map.mpr ⟨b, hb, hbk.trans hk.symm⟩)
      have hfil : as.filter (fun a => key a != k) = as := by
        apply List.filter_eq_self.mpr
        intro b hb
        simpa using hall b hb
      simp [removeFirst, hk, hfil]
    · simp [removeFirst, hk, ih hnd]

/-! ## Persistence layer: what the operations leave in place -/

theorem Meal.findById_findByIdAndUpdate (db : Db) (k j : ObjectId) (f : Meal → Meal)
    (hf : ∀ m, (f m).id = m.id) :
    Meal.findById (Meal.findByIdAndUpdate db k f).1 j
      = (Meal.findById db j).map (fun m => if j = k then f m else m) := by
  simp only [Meal.findById, Meal.findByIdAndUpdate]
  exact find?_updateFirst Meal.id f hf k j db.meals

theorem User.create_ok (env : Env) (db : Db) (username email password : String)
    (hu : usernameSetter username ≠ "") (he : emailSetter env email ≠ "") (hp : password ≠ "")
    (hfreshU : ∀ u ∈ db.users, u.username ≠ usernameSetter username)
    (hfreshE : ∀ u ∈ db.users, u.email ≠ emailSetter env email) :
    User.create env db username email password
      = Except.ok
          ({ db with
              users := db.users ++ [{ id := db.nextId, username := usernameSetter username,
                                      email := emailSetter env email, password := password,
                                      role := Role.customer }],
              nextId := db.nextId + 1 },
            { id := db.nextId, username := usernameSetter username,
              email := emailSetter env email, password := password, role := Role.customer }) := by
  have hany : (db.users.any (fun u => u.username == usernameSetter username
      || u.email == emailSetter env email)) = false := by
    rw [List.any_eq_false]
    intro u hmem
    simp [hfreshU u hmem, hfreshE u hmem]
  simp [User.create, hu, he, hp, hany]

/-! ## POST /login -/

/-- C1 (fails on the code): on the sample state, a login with an email that
no user has renders "Invalid email or password. Please try again.", a login
with the email of `alice` and a wrong password renders "User not found and/or
incorrect password."; both requests carry non-empty fields and the two replies
differ, so the response tells whether the email is registered. -/
theorem postLogin_message_reveals_registration :
    User.findOneByEmail sampleEnv sampleDb "nobody@example.com" = none
    ∧ User.findOneByEmail sampleEnv sampleDb "alice@example.com" = some alice
    ∧ sampleEnv.compareSync "wrong" alice.password = false
    ∧ (postLogin sampleEnv { email := "nobody@example.com", password := "wrong" } sampleDb none).replies
        = [Reply.render "auth/login" (some "Invalid email or password. Please try again.")]
    ∧ (postLogin sampleEnv { email := "alice@example.com", password := "wrong" } sampleDb none).replies
        = [Reply.render "auth/login" (some "User not found and/or incorrect password.")]
    ∧ (postLogin sampleEnv { email := "nobody@example.com", password := "wrong" } sampleDb none).replies
        ≠ (postLogin sampleEnv { email := "alice@example.com", password := "wrong" } sampleDb none).replies := by
  decide

/-! ## POST /signup -/

/-- C2 (as stated, refuted): the empty password has length below 8, yet the
signup form is re-rendered with the message of the mandatory-fields check,
which comes first, not with the short-password message. -/
theorem postSignup_empty_password_not_short_message :
    jsLength "" < 8
    ∧ (postSignup sampleEnv { username := "bob", email := "bob@example.com", password := "" }
        sampleDb none).replies
        = [Reply.render "auth/signup"
            (some "All fields are mandatory. Please provide a username, email and password.")]
    ∧ (postSignup sampleEnv { username := "bob", email := "bob@example.com", password := "" }
        sampleDb none).replies
        ≠ [Reply.render "auth/signup" (some "Your password must be a minimum of 8 characters.")] := by
  decide

/-- C2 (amended): for every signup request whose password has length below 8,
the persistence state and the session are unchanged, no lookup and no hash is
performed, and the signup form is re-rendered: with the short-password message
when username, email and password are all non-empty, with the
mandatory-fields message when one of them is empty. -/
theorem postSignup_short_password (env : Env) (body : SignupBody) (db : Db)
    (currentUser : Option User) (hlen : jsLength body.password < 8) :
    (postSignup env body db currentUser).db = db
    ∧ (postSignup env body db currentUser).currentUser = currentUser
    ∧ (postSignup env body db currentUser).calls = []
    ∧ (postSignup env body db currentUser).replies
        = [Reply.render "auth/signup"
            (some (if body.username = "" ∨ body.email = "" ∨ body.password = "" then
              "All fields are mandatory. Please provide a username, email and password."
            else "Your password must be a minimum of 8 characters."))] := by
  unfold postSignup
  by_cases h : body.username = "" ∨ body.email = "" ∨ body.password = ""
  · simp only [if_pos h, and_self]
  · simp only [if_neg h, if_pos hlen, and_self]

theorem postSignup_short_password_witness :
    jsLength "1234567" < 8
    ∧ (postSignup sampleEnv { username := "bob", email := "bob@example.com", password := "1234567" }
        sampleDb none).db = sampleDb
    ∧ (postSignup sampleEnv { username := "bob", email := "bob@example.com", password := "1234567" }
        sampleDb none).replies
        = [Reply.render "auth/signup" (some "Your password must be a minimum of 8 characters.")] := by
  have h := postSignup_short_password sampleEnv
    { username := "bob", email := "bob@example.com", password := "1234567" } sampleDb none
    (by decide)
  exact ⟨by decide, h.1, by decide⟩

/-- C3 (as stated, refuted): username, email and password are non-empty, the
password has 8 characters and no user is called "bob", but the email is that
of `alice`: the unique index on `email` rejects the insert, the error goes to
`next`, no user is created and the session stays anonymous. -/
theorem postSignup_taken_email_fails :
    "bob" ≠ "" ∧ "alice@example.com" ≠ "" ∧ "12345678" ≠ ""
    ∧ 8 ≤ jsLength "12345678"
    ∧ (∀ u ∈ sampleDb.users, u.username ≠ "bob")
    ∧ (postSignup sampleEnv { username := "bob", email := "alice@example.com", password := "12345678" }
        sampleDb none).replies = [Reply.next Err.duplicateKey]
    ∧ (postSignup sampleEnv { username := "bob", email := "alice@example.com", password := "12345678" }
        sampleDb none).db = sampleDb
    ∧ (postSignup sampleEnv { username := "bob", email := "alice@example.com", password := "12345678" }
        sampleDb none).currentUser = none := by
  decide

/-- C3 (amended): for every signup request with non-empty username, email and
password, password length at least 8, a username and an email that are not
empty after the schema setters (trim; lowercase and trim) and that no existing
user has, and a hasher whose result for this password is a non-empty string
other than the password, POST /signup succeeds: exactly one User is appended,
with the next identifier, the normalised username and email, the role
`customer` and as password the hasher's result for the plaintext with 10
rounds, which is not the plaintext; meals and comments are unchanged; the
session's current user is the created user; the response is a redirect to
/menu. -/
theorem postSignup_creates_user (env : Env) (body : SignupBody) (db : Db)
    (currentUser : Option User)
    (hu : body.username ≠ "") (he : body.email ≠ "") (hp : body.password ≠ "")
    (hlen : 8 ≤ jsLength body.password)
    (hu2 : usernameSetter body.username ≠ "") (he2 : emailSetter env body.email ≠ "")
    (hfreshU : ∀ u ∈ db.users, u.username ≠ usernameSetter body.username)
    (hfreshE : ∀ u ∈ db.users, u.email ≠ emailSetter env body.email)
    (hhash : env.hash body.password 10 ≠ "")
    (hne : env.hash body.password 10 ≠ body.password) :
    (postSignup env body db currentUser).db
        = { db with
            users := db.users ++ [{ id := db.nextId, username := usernameSetter body.username,
                                    email := emailSetter env body.email,
                                    password := env.hash body.password 10,
                                    role := Role.customer }],
            nextId := db.nextId + 1 }
    ∧ (postSignup env body db currentUser).currentUser
        = some { id := db.nextId, username := usernameSetter body.username,
                 email := emailSetter env body.email,
                 password := env.hash body.password 10, role := Role.customer }
    ∧ (∀ u ∈ (postSignup env body db currentUser).db.users, u ∉ db.users →
        u.password = env.hash body.password 10 ∧ u.password ≠ body.password)
    ∧ (postSignup env body db currentUser).replies = [Reply.redirect "/menu"]
    ∧ (postSignup env body db currentUser).calls
        = [Call.userFindOne, Call.bcryptHash, Call.userCreate] := by
  have h1 : ¬ (body.username = "" ∨ body.email = "" ∨ body.password = "") := by
    simp [hu, he, hp]
  have h2 : ¬ jsLength body.password < 8 := by omega
  have h3 : User.findOneByUsername db body.username = none := by
    simp only [User.findOneByUsername, List.find?_eq_none]
    intro u hmem
    simpa using hfreshU u hmem
  have h4 := User.create_ok env db body.username body.email (env.hash body.password 10)
    hu2 he2 hhash hfreshU hfreshE
  simp only [postSignup, if_neg h1, if_neg h2, h3, saltRounds, h4, true_and]
  refine ⟨?_, trivial⟩
  intro u hmem hnew
  rcases List.mem_append.mp hmem with hold | hlast
  · exact absurd hold hnew
  · rw [List.mem_singleton.mp hlast]
    exact ⟨rfl, hne⟩

theorem postSignup_creates_user_witness :
    (postSignup sampleEnv { username := " bob", email := "Bob@Example.com", password := "12345678" }
        sampleDb none).db.users
      = [chef, alice,
          { id := 5, username := "bob", email := "bob@example.com",
            password := "$2b$10$12345678", role := Role.customer }]
    ∧ (postSignup sampleEnv { username := " bob", email := "Bob@Example.com", password := "12345678" }
        sampleDb none).replies = [Reply.redirect "/menu"] := by
  have h := postSignup_creates_user sampleEnv
    { username := " bob", email := "Bob@Example.com", password := "12345678" } sampleDb none
    (by decide) (by decide) (by decide) (by decide) (by decide) (by decide) (by decide)
    (by decide) (by decide) (by decide)
  exact ⟨by rw [h.1]; decide, h.2.2.2.1⟩

/-! ## POST /logout -/

/-- C9 (fails on the code): for every error reported by session termination,
the logout handler forwards the error to `next` and then still calls
`res.redirect('/')`: two replies, the redirect among them; this is what the
route answers to every authenticated caller. -/
theorem postLogout_error_still_redirects (env : Env) (db : Db) (user : User) (err : Err) :
    (postLogout (some err) db (some user)).replies = [Reply.next err, Reply.redirect "/"]
    ∧ (handle env (Request.postLogout (some err)) db (some user)).replies
        = [Reply.next err, Reply.redirect "/"] := by
  simp [handle, guarded, isLoggedIn, postLogout]

/-! ## POST /menu/meal/:mealId/create-comment -/

/-- C10 (fails on the code): the route has no guard; on the sample state a
request whose session holds no current user creates a Comment without author
on `curry` and appends its id to the meal's comments. -/
theorem postCreateComment_anonymous_creates :
    (handle sampleEnv (Request.postCreateComment 3 "Unsigned.") sampleDb none).db.comments
      = [praise, { id := 5, dish := 3, author := none, content := "Unsigned." }]
    ∧ Meal.findById (handle sampleEnv (Request.postCreateComment 3 "Unsigned.") sampleDb none).db 3
      = some { curry with comments := [4, 5] }
    ∧ (handle sampleEnv (Request.postCreateComment 3 "Unsigned.") sampleDb none).replies
      = [Reply.redirect "/menu/meal/3"] := by
  decide

/-- C4 (as stated, refuted): meal id 9 resolves to no meal of the sample
state; the comment request completes without an error reply, the Comment is
stored with `dish` 9 and the response redirects to /menu/meal/9, yet no meal's
`comments` holds the new Comment's id and a lookup of id 9 still finds no
meal. -/
theorem postCreateComment_unknown_meal_not_linked :
    Meal.findById sampleDb 9 = none
    ∧ (postCreateComment 9 "Lost." sampleDb (some alice)).replies
        = [Reply.redirect "/menu/meal/9"]
    ∧ (postCreateComment 9 "Lost." sampleDb (some alice)).db.comments
        = [praise, { id := 5, dish := 9, author := some 1, content := "Lost." }]
    ∧ (∀ m ∈ (postCreateComment 9 "Lost." sampleDb (some alice)).db.meals, 5 ∉ m.comments)
    ∧ Meal.findById (postCreateComment 9 "Lost." sampleDb (some alice)).db 9 = none := by
  decide

/-- C4 (amended): for every meal id that resolves to an existing meal `m` and
every comment request: when the content is non-empty, the response is the
redirect to /menu/meal/ followed by the id and nothing else (no error), the
new Comment is appended to the comments with `dish` the meal id and the
session user as author, the meal's `comments` is the old collection followed
by the new Comment's id with its other fields unchanged, users are unchanged
and a lookup of any other meal id gives what it gave before; when the content
is empty, the only reply is `next` with the validation error and the
persistence state is unchanged. -/
theorem postCreateComment_links_comment (mealId : ObjectId) (content : String) (db : Db)
    (currentUser : Option User) (m : Meal)
    (hm : Meal.findById db mealId = some m) :
    (content ≠ "" →
      (postCreateComment mealId content db currentUser).replies
          = [Reply.redirect ("/menu/meal/" ++ toString mealId)]
      ∧ (postCreateComment mealId content db currentUser).db.comments
          = db.comments ++ [{ id := db.nextId, dish := mealId,
                              author := currentUser.map (fun u => u.id), content := content }]
      ∧ Meal.findById (postCreateComment mealId content db currentUser).db mealId
          = some { m with comments := m.comments ++ [db.nextId] }
      ∧ (∀ j, j ≠ mealId →
          Meal.findById (postCreateComment mealId content db currentUser).db j
            = Meal.findById db j)
      ∧ (postCreateComment mealId content db currentUser).db.users = db.users)
    ∧ (content = "" →
      (postCreateComment mealId content db currentUser).replies
          = [Reply.next Err.validationError]
      ∧ (postCreateComment mealId content db currentUser).db = db) := by
  constructor
  · intro hc
    have hfind : ∀ j, Meal.findById (postCreateComment mealId content db currentUser).db j
        = (Meal.findById db j).map (fun x =>
            if j = mealId then { x with comments := x.comments ++ [db.nextId] } else x) := by
      intro j
      simp only [postCreateComment, Comment.create, if_neg hc]
      rw [Meal.findById_findByIdAndUpdate]
      · rfl
      · intro _
        rfl
    refine ⟨?_, ?_, ?_, ?_, ?_⟩
    · simp [postCreateComment, Comment.create, hc]
    · simp [postCreateComment, Comment.create, hc, Meal.findByIdAndUpdate]
    · rw [hfind, hm]
      simp
    · intro j hj
      rw [hfind]
      simp [hj]
    · simp [postCreateComment, Comment.create, hc, Meal.findByIdAndUpdate]
  · intro hc
    simp [postCreateComment, Comment.create, hc]

theorem postCreateComment_links_comment_witness :
    ((postCreateComment 3 "Hot." sampleDb (some alice)).replies
        = [Reply.redirect "/menu/meal/3"]
      ∧ (postCreateComment 3 "Hot." sampleDb (some alice)).db.comments
        = [praise, { id := 5, dish := 3, author := some 1, content := "Hot." }]
      ∧ Meal.findById (postCreateComment 3 "Hot." sampleDb (some alice)).db 3
        = some { curry with comments := [4, 5] })
    ∧ ((postCreateComment 3 "" sampleDb (some alice)).replies = [Reply.next Err.validationError]
      ∧ (postCreateComment 3 "" sampleDb (some alice)).db = sampleDb) := by
  have h := (postCreateComment_links_comment 3 "Hot." sampleDb (some alice) curry
    (by decide)).1 (by decide)
  have h0 := (postCreateComment_links_comment 3 "" sampleDb (some alice) curry
    (by decide)).2 rfl
  exact ⟨⟨h.1, h.2.1, h.2.2.1⟩, h0⟩

/-! ## POST /meals/:mealId/edit -/

theorem postEditMeal_db (mealId : ObjectId) (body : EditBody) (file : Option UploadedFile)
    (db : Db) (currentUser : Option User) :
    (postEditMeal mealId body file db currentUser).db
      = (Meal.findByIdAndUpdate db mealId (applyEdit body
          (match file with
            | some f => f.path
            | none => body.existingImage))).1 := by
  cases file <;> (simp only [postEditMeal]; split <;> rfl)

/-- C6 (as stated, refuted): `soup` is edited without an uploaded file and
with an `existingImage` field that is not the stored URI; afterwards the
meal's `mealImage` is the field's value, not the URI stored before. -/
theorem postEditMeal_image_follows_form_field :
    Meal.findById sampleDb 2 = some soup
    ∧ (Meal.findById (postEditMeal 2
          { name := "Soup", ingredients := "water, leek", allergens := "none",
            spiceLevel := "mild", category := "starter", cuisine := "french",
            dishType := "vegan", existingImage := "https://img.example/other.png" }
          none sampleDb (some chef)).db 2).map (fun m => m.mealImage)
        = some "https://img.example/other.png"
    ∧ (Meal.findById (postEditMeal 2
          { name := "Soup", ingredients := "water, leek", allergens := "none",
            spiceLevel := "mild", category := "starter", cuisine := "french",
            dishType := "vegan", existingImage := "https://img.example/other.png" }
          none sampleDb (some chef)).db 2).map (fun m => m.mealImage)
        ≠ some soup.mealImage := by
  decide

/-- C6 (amended): for every existing meal and every edit request, afterwards
the meal has the submitted name, ingredients, allergens, spiceLevel, category,
cuisine and dishType, its id and comments are as before, and its mealImage is
the uploaded file's path when a file is uploaded and otherwise the value of
the form's `existingImage` field (so the stored URI is kept exactly when the
form sends it back). -/
theorem postEditMeal_overwrites (mealId : ObjectId) (body : EditBody)
    (file : Option UploadedFile) (db : Db) (currentUser : Option User) (m : Meal)
    (hm : Meal.findById db mealId = some m) :
    Meal.findById (postEditMeal mealId body file db currentUser).db mealId
      = some { id := m.id, name := body.name, ingredients := body.ingredients,
               allergens := body.allergens, spiceLevel := body.spiceLevel,
               mealImage := (match file with
                 | some f => f.path
                 | none => body.existingImage),
               category := body.category, cuisine := body.cuisine, dishType := body.dishType,
               comments := m.comments } := by
  rw [postEditMeal_db, Meal.findById_findByIdAndUpdate, hm]
  · simp [applyEdit]
  · intro _
    rfl

theorem postEditMeal_overwrites_witness :
    Meal.findById (postEditMeal 2
        { name := "Leek soup", ingredients := "water, leek", allergens := "none",
          spiceLevel := "mild", category := "starter", cuisine := "french",
          dishType := "vegan", existingImage := "https://img.example/soup.png" }
        none sampleDb (some chef)).db 2
      = some { soup with name := "Leek soup" } :=
  postEditMeal_overwrites 2
    { name := "Leek soup", ingredients := "water, leek", allergens := "none",
      spiceLevel := "mild", category := "starter", cuisine := "french",
      dishType := "vegan", existingImage := "https://img.example/soup.png" }
    none sampleDb (some chef) soup (by decide)

/-! ## POST /meals/:mealId/delete -/

/-- C7 (as stated, refuted): after `curry` is deleted, GET /menu/meal/3
forwards a TypeError to the generic error handler and GET /meals/3 renders the
meal-details view with `foundMeal` null; neither is a NotFound outcome. -/
theorem detail_after_delete_not_NotFound :
    Meal.findById sampleDb 3 = some curry
    ∧ (getMenuMeal 3 (postDeleteMeal 3 sampleDb (some chef)).db none).replies
        = [Reply.next Err.typeError]
    ∧ (getMealDetails 3 (postDeleteMeal 3 sampleDb (some chef)).db (some chef)).replies
        = [Reply.renderMeal "meals/meal-details" none] := by
  decide

/-- C7 (amended): for every meal collection with pairwise distinct ids and
every existing meal, after POST /meals/:mealId/delete the collection is the
old one without the meals of that id, in the same order; this is the list the
menu and the admin listing render, the deleted meal is not in it, a lookup of
the id resolves to no meal and GET /meals/:mealId renders the meal-details
view with `foundMeal` null. -/
theorem postDeleteMeal_removes_meal (mealId : ObjectId) (db : Db) (currentUser : Option User)
    (m : Meal) (hids : (db.meals.map Meal.id).Nodup)
    (hm : Meal.findById db mealId = some m) :
    (postDeleteMeal mealId db currentUser).db.meals
        = db.meals.filter (fun x => x.id != mealId)
    ∧ m ∉ (postDeleteMeal mealId db currentUser).db.meals
    ∧ (getMenu (postDeleteMeal mealId db currentUser).db currentUser).replies
        = [Reply.renderMeals "meals/menu" (db.meals.filter (fun x => x.id != mealId))]
    ∧ (getMeals (postDeleteMeal mealId db currentUser).db currentUser).replies
        = [Reply.renderMeals "meals/all-meals" (db.meals.filter (fun x => x.id != mealId))]
    ∧ Meal.findById (postDeleteMeal mealId db currentUser).db mealId = none
    ∧ (getMealDetails mealId (postDeleteMeal mealId db currentUser).db currentUser).replies
        = [Reply.renderMeal "meals/meal-details" none] := by
  have hlist : (postDeleteMeal mealId db currentUser).db.meals
      = db.meals.filter (fun x => x.id != mealId) := by
    simp only [postDeleteMeal, Meal.findByIdAndDelete]
    exact removeFirst_eq_filter Meal.id mealId db.meals hids
  have hid : m.id = mealId := by
    have h := List.find?_some hm
    simpa using h
  have hnone : Meal.findById (postDeleteMeal mealId db currentUser).db mealId = none := by
    simp only [Meal.findById, hlist, List.find?_eq_none]
    intro x hx
    have h2 := (List.mem_filter.mp hx).2
    simpa using h2
  refine ⟨hlist, ?_, ?_, ?_, hnone, ?_⟩
  · rw [hlist]
    intro hmem
    have h2 := (List.mem_filter.mp hmem).2
    simp [hid] at h2
  · simp [getMenu, Meal.find, hlist]
  · simp [getMeals, Meal.find, hlist]
  · simp [getMealDetails, hnone]

theorem postDeleteMeal_removes_meal_witness :
    (postDeleteMeal 3 sampleDb (some chef)).db.meals = [soup]
    ∧ Meal.findById (postDeleteMeal 3 sampleDb (some chef)).db 3 = none := by
  have h := postDeleteMeal_removes_meal 3 sampleDb (some chef) curry (by decide) (by decide)
  exact ⟨by rw [h.1]; decide, h.2.2.2.2.1⟩

/-! ## POST /meals/create -/

theorem Meal.findOne_eq_none_iff (db : Db) (name : String) :
    Meal.findOne db name = none ↔ ∀ m ∈ db.meals, m.name ≠ name := by
  simp [Meal.findOne, List.find?_eq_none]

theorem postCreateMeal_meals (body : MealBody) (file : Option UploadedFile) (db : Db)
    (currentUser : Option User) :
    ((postCreateMeal body file db currentUser).db.meals = db.meals
      ∨ ((∀ m ∈ db.meals, m.name ≠ body.name)
          ∧ ∃ doc : Meal, doc.name = body.name ∧ doc.comments = []
            ∧ (postCreateMeal body file db currentUser).db.meals = db.meals ++ [doc]))
    ∧ (postCreateMeal body file db currentUser).db.comments = db.comments := by
  unfold postCreateMeal
  by_cases hempty : body.name = "" ∨ body.ingredients = "" ∨ body.allergens = ""
  · simp [hempty]
  · cases hfind : Meal.findOne db body.name with
    | some found => simp [hempty, hfind]
    | none =>
      cases file with
      | none => simp [hempty, hfind]
      | some f =>
        refine ⟨Or.inr ⟨(Meal.findOne_eq_none_iff db body.name).mp hfind, ?_⟩, ?_⟩
        · simp [hempty, hfind, Meal.create]
        · simp [hempty, hfind, Meal.create]

/-- C8 (as stated, refuted): name, ingredients and allergens are non-empty
and no meal of the sample state is called "Tart", but the request carries no
uploaded file: reading `req.file.path` throws, the error goes to `next` and no
meal is added. -/
theorem postCreateMeal_without_file_adds_nothing :
    "Tart" ≠ "" ∧ "apple" ≠ "" ∧ "gluten" ≠ ""
    ∧ (∀ m ∈ sampleDb.meals, m.name ≠ "Tart")
    ∧ (postCreateMeal
        { name := "Tart", ingredients := "apple", allergens := "gluten", spiceLevel := "none",
          category := "dessert", cuisine := "french", dishType := "vegetarian" }
        none sampleDb (some chef)).replies = [Reply.next Err.typeError]
    ∧ (postCreateMeal
        { name := "Tart", ingredients := "apple", allergens := "gluten", spiceLevel := "none",
          category := "dessert", cuisine := "french", dishType := "vegetarian" }
        none sampleDb (some chef)).db.meals = sampleDb.meals := by
  decide

/-- C8 (amended): for every create-meal request with non-empty name,
ingredients and allergens: when a meal with the same name exists, the new-meal
form is rendered with "This meal already exists in the database." and the
persistence state is unchanged; when no meal has that name and the request
carries an uploaded file, exactly one meal is appended, with the submitted
fields, the uploaded file's path as image and no comments, and the response
redirects to /meals; and, with or without a file, a collection with pairwise
distinct names keeps pairwise distinct names. -/
theorem postCreateMeal_unique_name (body : MealBody) (file : Option UploadedFile) (db : Db)
    (currentUser : Option User)
    (hn : body.name ≠ "") (hi : body.ingredients ≠ "") (ha : body.allergens ≠ "") :
    ((∃ m ∈ db.meals, m.name = body.name) →
        (postCreateMeal body file db currentUser).replies
          = [Reply.render "meals/new-meal" (some "This meal already exists in the database.")]
        ∧ (postCreateMeal body file db currentUser).db = db)
    ∧ ((∀ m ∈ db.meals, m.name ≠ body.name) → ∀ f, file = some f →
        (postCreateMeal body file db currentUser).db
          = { db with
              meals := db.meals ++ [{ id := db.nextId, name := body.name,
                                      ingredients := body.ingredients,
                                      allergens := body.allergens,
                                      spiceLevel := body.spiceLevel, mealImage := f.path,
                                      category := body.category, cuisine := body.cuisine,
                                      dishType := body.dishType, comments := [] }],
              nextId := db.nextId + 1 }
        ∧ (postCreateMeal body file db currentUser).replies = [Reply.redirect "/meals"])
    ∧ ((db.meals.map Meal.name).Nodup →
        ((postCreateMeal body file db currentUser).db.meals.map Meal.name).Nodup) := by
  have hempty : ¬ (body.name = "" ∨ body.ingredients = "" ∨ body.allergens = "") := by
    simp [hn, hi, ha]
  refine ⟨?_, ?_, ?_⟩
  · intro hex
    cases hfind : Meal.findOne db body.name with
    | none =>
      obtain ⟨m, hmem, hname⟩ := hex
      exact absurd hname ((Meal.findOne_eq_none_iff db body.name).mp hfind m hmem)
    | some found => simp [postCreateMeal, hempty, hfind]
  · intro hfresh f hfile
    have hfind := (Meal.findOne_eq_none_iff db body.name).mpr hfresh
    subst hfile
    simp [postCreateMeal, hempty, hfind, Meal.create]
  · intro hnodup
    rcases (postCreateMeal_meals body file db currentUser).1 with hsame | ⟨hfresh, doc, hname, _, hadd⟩
    · rw [hsame]
      exact hnodup
    · rw [hadd, List.map_append, List.nodup_append]
      refine ⟨hnodup, by simp, ?_⟩
      intro a ha1 ha2
      obtain ⟨m, hmem, hmn⟩ := List.mem_map.mp ha1
      simp only [List.map_cons, List.map_nil, List.mem_singleton] at ha2
      exact hfresh m hmem (hmn.trans (ha2.trans hname))

theorem postCreateMeal_unique_name_witness :
    (postCreateMeal
        { name := "Tart", ingredients := "apple", allergens := "gluten", spiceLevel := "none",
          category := "dessert", cuisine := "french", dishType := "vegetarian" }
        (some { path := "https://img.example/tart.png" }) sampleDb (some chef)).db.meals
      = [soup, curry,
          { id := 5, name := "Tart", ingredients := "apple", allergens := "gluten",
            spiceLevel := "none", mealImage := "https://img.example/tart.png",
            category := "dessert", cuisine := "french", dishType := "vegetarian",
            comments := [] }]
    ∧ (postCreateMeal
        { name := "Soup", ingredients := "water", allergens := "none", spiceLevel := "mild",
          category := "starter", cuisine := "french", dishType := "vegan" }
        (some { path := "https://img.example/soup2.png" }) sampleDb (some chef)).replies
      = [Reply.render "meals/new-meal" (some "This meal already exists in the database.")]
    ∧ (postCreateMeal
        { name := "Soup", ingredients := "water", allergens := "none", spiceLevel := "mild",
          category := "starter", cuisine := "french", dishType := "vegan" }
        (some { path := "https://img.example/soup2.png" }) sampleDb (some chef)).db = sampleDb := by
  have h := (postCreateMeal_unique_name
    { name := "Tart", ingredients := "apple", allergens := "gluten", spiceLevel := "none",
      category := "dessert", cuisine := "french", dishType := "vegetarian" }
    (some { path := "https://img.example/tart.png" }) sampleDb (some chef)
    (by decide) (by decide) (by decide)).2.1 (by decide) _ rfl
  have hdup := (postCreateMeal_unique_name
    { name := "Soup", ingredients := "water", allergens := "none", spiceLevel := "mild",
      category := "starter", cuisine := "french", dishType := "vegan" }
    (some { path := "https://img.example/soup2.png" }) sampleDb (some chef)
    (by decide) (by decide) (by decide)).1 ⟨soup, by decide, rfl⟩
  exact ⟨by rw [h.1]; decide, hdup.1, hdup.2⟩

/-! ## The referential invariant -/

theorem CommentsReferenced.congr {db db1 : Db} (hmeals : db1.meals = db.meals)
    (hcomments : db1.comments = db.comments) (hinv : CommentsReferenced db) :
    CommentsReferenced db1 := by
  intro c hc
  rw [hcomments] at hc
  obtain ⟨m, hfind, hmem⟩ := hinv c hc
  refine ⟨m, ?_, hmem⟩
  simp only [Meal.findById] at hfind ⊢
  rw [hmeals]
  exact hfind

theorem guarded_preserves (guard : Guard) (pass : Bool) (db : Db) (currentUser : Option User)
    (handler : Outcome) (hinv : CommentsReferenced db)
    (hhandler : CommentsReferenced handler.db) :
    CommentsReferenced (guarded guard pass db currentUser handler).db := by
  unfold guarded
  cases pass
  · exact hinv
  · exact hhandler

theorem postSignup_meals_comments (env : Env) (body : SignupBody) (db : Db)
    (currentUser : Option User) :
    (postSignup env body db currentUser).db.meals = db.meals
    ∧ (postSignup env body db currentUser).db.comments = db.comments := by
  unfold postSignup
  split_ifs
  · exact ⟨rfl, rfl⟩
  · exact ⟨rfl, rfl⟩
  · split
    · exact ⟨rfl, rfl⟩
    · dsimp only
      split
      · rename_i db1 createdUser hcreate
        unfold User.create at hcreate
        dsimp only at hcreate
        split_ifs at hcreate
        simp only [Except.ok.injEq, Prod.mk.injEq] at hcreate
        rw [← hcreate.1]
        exact ⟨rfl, rfl⟩
      · exact ⟨rfl, rfl⟩

theorem postLogin_db (env : Env) (body : LoginBody) (db : Db) (currentUser : Option User) :
    (postLogin env body db currentUser).db = db := by
  unfold postLogin
  split_ifs
  · rfl
  · split
    · rfl
    · split_ifs <;> rfl

theorem postCreateMeal_preserves (body : MealBody) (file : Option UploadedFile) (db : Db)
    (currentUser : Option User) (hinv : CommentsReferenced db) :
    CommentsReferenced (postCreateMeal body file db currentUser).db := by
  obtain ⟨hmeals, hcomments⟩ := postCreateMeal_meals body file db currentUser
  rcases hmeals with hsame | ⟨_, doc, _, _, hadd⟩
  · exact CommentsReferenced.congr hsame hcomments hinv
  · intro c hc
    rw [hcomments] at hc
    obtain ⟨m, hfind, hmem⟩ := hinv c hc
    refine ⟨m, ?_, hmem⟩
    simp only [Meal.findById] at hfind ⊢
    rw [hadd, List.find?_append, hfind]
    rfl

theorem Meal.findByIdAndUpdate_preserves (db : Db) (mealId : ObjectId) (f : Meal → Meal)
    (hid : ∀ m, (f m).id = m.id) (hcomments : ∀ m, (f m).comments = m.comments)
    (hinv : CommentsReferenced db) :
    CommentsReferenced (Meal.findByIdAndUpdate db mealId f).1 := by
  intro c hc
  obtain ⟨m, hfind, hmem⟩ := hinv c hc
  rw [Meal.findById_findByIdAndUpdate db mealId c.dish f hid, hfind]
  by_cases hsame : c.dish = mealId
  · refine ⟨f m, ?_, ?_⟩
    · simp only [Option.map_some', if_pos hsame]
    · rw [hcomments]
      exact hmem
  · refine ⟨m, ?_, hmem⟩
    simp only [Option.map_some', if_neg hsame]

theorem postEditMeal_preserves (mealId : ObjectId) (body : EditBody)
    (file : Option UploadedFile) (db : Db) (currentUser : Option User)
    (hinv : CommentsReferenced db) :
    CommentsReferenced (postEditMeal mealId body file db currentUser).db := by
  rw [postEditMeal_db]
  exact Meal.findByIdAndUpdate_preserves db mealId _ (fun _ => rfl) (fun _ => rfl) hinv

theorem postDeleteMeal_preserves (mealId : ObjectId) (db : Db) (currentUser : Option User)
    (hinv : CommentsReferenced db) (hfree : ∀ c ∈ db.comments, c.dish ≠ mealId) :
    CommentsReferenced (postDeleteMeal mealId db currentUser).db := by
  intro c hc
  obtain ⟨m, hfind, hmem⟩ := hinv c hc
  refine ⟨m, ?_, hmem⟩
  simp only [Meal.findById, postDeleteMeal, Meal.findByIdAndDelete] at hfind ⊢
  rw [find?_removeFirst_ne Meal.id mealId c.dish (hfree c hc)]
  exact hfind

theorem postCreateComment_preserves (mealId : ObjectId) (content : String) (db : Db)
    (currentUser : Option User) (hinv : CommentsReferenced db)
    (hmeal : (Meal.findById db mealId).isSome) :
    CommentsReferenced (postCreateComment mealId content db currentUser).db := by
  by_cases hc : content = ""
  · have hdb : (postCreateComment mealId content db currentUser).db = db := by
      simp [postCreateComment, Comment.create, hc]
    rw [hdb]
    exact hinv
  · obtain ⟨m, hm⟩ := Option.isSome_iff_exists.mp hmeal
    have hcomments : (postCreateComment mealId content db currentUser).db.comments
        = db.comments ++ [{ id := db.nextId, dish := mealId,
                            author := currentUser.map (fun u => u.id), content := content }] := by
      simp [postCreateComment, Comment.create, hc, Meal.findByIdAndUpdate]
    have hfind : ∀ j, Meal.findById (postCreateComment mealId content db currentUser).db j
        = (Meal.findById db j).map (fun x =>
            if j = mealId then { x with comments := x.comments ++ [db.nextId] } else x) := by
      intro j
      simp only [postCreateComment, Comment.create, if_neg hc]
      rw [Meal.findById_findByIdAndUpdate]
      · rfl
      · intro _
        rfl
    intro c hmemc
    rw [hcomments] at hmemc
    rw [hfind]
    rcases List.mem_append.mp hmemc with hold | hnew
    · obtain ⟨x, hx, hin⟩ := hinv c hold
      rw [hx]
      by_cases hsame : c.dish = mealId
      · refine ⟨{ x with comments := x.comments ++ [db.nextId] }, ?_, ?_⟩
        · simp only [Option.map_some', if_pos hsame]
        · exact List.mem_append.mpr (Or.inl hin)
      · refine ⟨x, ?_, hin⟩
        simp only [Option.map_some', if_neg hsame]
    · rw [List.mem_singleton.mp hnew]
      refine ⟨{ m with comments := m.comments ++ [db.nextId] }, ?_, ?_⟩
      · simp only [hm, Option.map_some', if_true]
      · simp

/-- C5 (as stated, refuted): on the sample state the invariant holds; after an
administrator deletes `curry`, which has a comment, it does not, and after a
comment is posted to meal id 9, which resolves to no meal, it does not
either. -/
theorem CommentsReferenced_broken :
    CommentsReferenced sampleDb
    ∧ ¬ CommentsReferenced (handle sampleEnv (Request.postDeleteMeal 3) sampleDb (some chef)).db
    ∧ Meal.findById sampleDb 9 = none
    ∧ ¬ CommentsReferenced
        (handle sampleEnv (Request.postCreateComment 9 "Lost.") sampleDb (some alice)).db := by
  decide

/-- C5 (amended): the referential invariant is preserved by every request
(signup, login, logout, create meal, update meal and the GET routes included),
provided that a comment is posted to a meal id that resolves to a meal and
that a deleted meal id is the `dish` of no stored comment. -/
theorem handle_preserves_CommentsReferenced (env : Env) (req : Request) (db : Db)
    (currentUser : Option User) (hinv : CommentsReferenced db)
    (hcomment : ∀ mealId content, req = Request.postCreateComment mealId content →
      (Meal.findById db mealId).isSome)
    (hdelete : ∀ mealId, req = Request.postDeleteMeal mealId →
      ∀ c ∈ db.comments, c.dish ≠ mealId) :
    CommentsReferenced (handle env req db currentUser).db := by
  cases req with
  | getSignup => exact guarded_preserves _ _ _ _ _ hinv hinv
  | postSignup body =>
    exact guarded_preserves _ _ _ _ _ hinv
      (CommentsReferenced.congr (postSignup_meals_comments env body db currentUser).1
        (postSignup_meals_comments env body db currentUser).2 hinv)
  | getLogin => exact guarded_preserves _ _ _ _ _ hinv hinv
  | postLogin body =>
    refine guarded_preserves _ _ _ _ _ hinv ?_
    rw [postLogin_db]
    exact hinv
  | postLogout destroyError => exact guarded_preserves _ _ _ _ _ hinv hinv
  | getProfile userId => exact guarded_preserves _ _ _ _ _ hinv hinv
  | getMenu => exact hinv
  | getMenuMeal mealId =>
    simp only [handle, getMenuMeal]
    split <;> exact hinv
  | postCreateComment mealId content =>
    exact postCreateComment_preserves mealId content db currentUser hinv
      (hcomment mealId content rfl)
  | getCreateMeal => exact guarded_preserves _ _ _ _ _ hinv hinv
  | postCreateMeal body file =>
    exact guarded_preserves _ _ _ _ _ hinv (postCreateMeal_preserves body file db currentUser hinv)
  | getMeals => exact guarded_preserves _ _ _ _ _ hinv hinv
  | getMealDetails mealId => exact guarded_preserves _ _ _ _ _ hinv hinv
  | postDeleteMeal mealId =>
    exact guarded_preserves _ _ _ _ _ hinv
      (postDeleteMeal_preserves mealId db currentUser hinv (hdelete mealId rfl))
  | getEditMeal mealId => exact guarded_preserves _ _ _ _ _ hinv hinv
  | postEditMeal mealId body file =>
    exact guarded_preserves _ _ _ _ _ hinv
      (postEditMeal_preserves mealId body file db currentUser hinv)

theorem handle_preserves_CommentsReferenced_witness :
    CommentsReferenced
      (handle sampleEnv (Request.postCreateComment 3 "Hot.") sampleDb (some alice)).db :=
  handle_preserves_CommentsReferenced sampleEnv (Request.postCreateComment 3 "Hot.") sampleDb
    (some alice) (by decide)
    (by
      intro mealId content hreq
      cases hreq
      decide)
    (by
      intro mealId hreq
      cases hreq)

end Restaurant
